import Mathlib

/-!
Shallow embedding of `packages/editor-ui/src/components/WorkflowActivator.vue`.

The component is UI glue: computed booleans over store state and two async
methods (`activeChanged`, `displayActivationError`) whose behaviour is a
sequence of side effects (dialogs, one REST call, store commits, events).
We model one user interaction as a pure function from an environment
snapshot `Env` (props, store getters, and the outcomes of the awaited
collaborator calls) to the list of side effects it performs, in order.
The store is read-only during the interaction; commits are recorded as
effects rather than fed back, matching the non-reentrant single
interaction semantics of the component.
-/

namespace WorkflowActivator

/-- A node as seen by the component: `containsTrigger` only reads the
`disabled` flag of each trigger node (`!node.disabled`). -/
structure INodeUi where
  disabled : Bool
deriving DecidableEq

/-- The `IWorkflowDataUpdate` payload passed to `restApi().updateWorkflow`.
`fullSnapshot` records whether the payload is the full current workflow
returned by `getWorkflowDataToSave` (as opposed to the initial empty
object); `active` is the `data.active` field assigned before the request. -/
structure IWorkflowDataUpdate where
  fullSnapshot : Bool
  active : Option Bool
deriving DecidableEq

/-- One observable side effect of the component, in the order performed.
Each constructor corresponds to one call site in the component:
mixin calls (`saveCurrentWorkflow`, `$showMessage`, `confirmMessage`,
`getWorkflowDataToSave`, `$showError`), the `loading` data field writes,
the two REST calls, the vuex commits and dispatches, the external hook,
telemetry, and the component event emission. -/
inductive Effect where
  | saveCurrentWorkflow : Effect
  | showMessage (title message mtype : String) (duration : Option Nat) : Effect
  | confirmMessage (message headline mtype confirmButtonText : String) : Effect
  | getWorkflowDataToSave : Effect
  | setLoading (value : Bool) : Effect
  | updateWorkflow (id : Option String) (data : IWorkflowDataUpdate) : Effect
  | showError (title message : String) : Effect
  | commitSetActive (value : Bool) : Effect
  | commitSetWorkflowActive (id : Option String) : Effect
  | commitSetWorkflowInactive (id : Option String) : Effect
  | dispatchOpenModal (modalKey : String) : Effect
  | runExternalHook (eventName : String) (workflowId : Option String) (active : Bool) : Effect
  | telemetryTrack (event : String) (workflowId : Option String) (isActive : Bool) : Effect
  | emitWorkflowActiveChanged (id : Option String) (active : Bool) : Effect
  | dispatchFetchPromptsData : Effect
  | getActivationError (id : Option String) : Effect
deriving DecidableEq

/-- The snapshot of everything the component reads during one interaction:
its two props, the store getters, and the resolved outcomes of the awaited
collaborator calls (`confirmMessage`, `restApi().updateWorkflow`,
`window.localStorage`). `none` models JavaScript `undefined`. -/
structure Env where
  /-- The `workflowId` prop; `none` models `undefined`. -/
  workflowId : Option String
  /-- The `workflowActive` prop. -/
  workflowActive : Bool
  /-- Store getter `nodesIssuesExist`. -/
  nodesIssuesExist : Bool
  /-- Store getter `workflowId` (read as `activeWorkflowId` and
  `currentWorkflowId` in `activeChanged`). -/
  getterWorkflowId : Option String
  /-- `$store.state.workflow.id`, read by `isCurrentWorkflow`. -/
  stateWorkflowId : Option String
  /-- Store getter `getStateIsDirty`, mapped to `dirtyState`. -/
  dirtyState : Bool
  /-- Store getter `getActiveWorkflows`. -/
  activeWorkflows : List String
  /-- Store getter `workflowTriggerNodes`. -/
  triggerNodes : List INodeUi
  /-- What the awaited `confirmMessage` dialog resolves to. -/
  confirmResult : Bool
  /-- Whether the awaited `restApi().updateWorkflow` call resolves
  (`true`) or throws (`false`). -/
  updateWorkflowOk : Bool
  /-- Whether `window.localStorage.getItem(LOCAL_STORAGE_ACTIVATION_FLAG)`
  returns a truthy value (the one-time dialog was dismissed before). -/
  activationFlagSet : Bool
deriving DecidableEq

/-- JavaScript truthiness of the optional string `workflowId` prop:
`undefined` and the empty string are falsy. -/
def jsTruthy : Option String → Bool
  | none => false
  | some s => !s.isEmpty

/-- Computed `isWorkflowActive`:
`this.$store.getters.getActiveWorkflows.includes(this.workflowId)`
(`includes` of `undefined` on a list of ids is `false`). -/
def isWorkflowActive (env : Env) : Bool :=
  match env.workflowId with
  | none => false
  | some id => env.activeWorkflows.contains id

/-- Computed `couldNotBeStarted`:
`this.workflowActive === true && this.isWorkflowActive !== this.workflowActive`. -/
def couldNotBeStarted (env : Env) : Bool :=
  env.workflowActive && (isWorkflowActive env != env.workflowActive)

/-- Computed `isCurrentWorkflow`:
`this.workflowId && this.$store.state.workflow.id === this.workflowId`. -/
def isCurrentWorkflow (env : Env) : Bool :=
  jsTruthy env.workflowId && (env.stateWorkflowId == env.workflowId)

/-- Computed `containsTrigger`: the store trigger nodes filtered on
`!node.disabled` have `length > 0`. -/
def containsTrigger (env : Env) : Bool :=
  decide (0 < (env.triggerNodes.filter (fun node => !node.disabled)).length)

/-- Computed `disabled`: inside the `isCurrentWorkflow` branch it is
`!this.workflowActive && !this.containsTrigger`; otherwise `false`. -/
def disabled (env : Env) : Bool :=
  if isCurrentWorkflow env then
    !env.workflowActive && !containsTrigger env
  else
    false

/-- Computed `getActiveColor`. -/
def getActiveColor (env : Env) : String :=
  if couldNotBeStarted env then "#ff4949" else "#13ce66"

/-- The blocking validation error message shown when node issues exist. -/
def issuesBlockedMessage : String :=
  "It is only possible to activate a workflow when all issues on all nodes got resolved!"

/-- The confirmation prompt text shown before saving-and-activating. -/
def confirmSaveMessage : String :=
  "When you activate the workflow all currently unsaved changes of the workflow will be saved."

/-- Modelled from the spec: the modal key `WORKFLOW_ACTIVE_MODAL_KEY` is
imported from `@/constants`, which is not part of this file; its concrete
string value is irrelevant to the component, which only passes it to
`ui/openModal`, so it is modelled as an abstract token. -/
def WORKFLOW_ACTIVE_MODAL_KEY : String :=
  "workflowActiveModal"

/-- The contextual `$showError` message used when `updateWorkflow` throws:
with `newStateName` being `activated` or `deactivated`. -/
def updateFailedMessage (newActiveState : Bool) : String :=
  "There was a problem and the workflow could not be " ++
    (if newActiveState then "activated" else "deactivated") ++ ":"

/-- The effects of the first two lines of `activeChanged`: when the
`workflowId` prop is `undefined`, `saveCurrentWorkflow` is awaited first. -/
def preSave (env : Env) : List Effect :=
  if env.workflowId = none then [Effect.saveCurrentWorkflow] else []

/-- The tail of `activeChanged` from `this.loading = true` on: the
`updateWorkflow` call in the `try`, and either the `catch` branch
(`$showError`, `loading = false`, return) or the success continuation
(store commits, optional activation modal, external hook, telemetry,
component event, `loading = false`, `settings/fetchPromptsData`). -/
def finishRequest (env : Env) (newActiveState : Bool) (trace : List Effect)
    (data : IWorkflowDataUpdate) : List Effect :=
  let t2 := trace ++ [Effect.setLoading true, Effect.updateWorkflow env.workflowId data]
  if env.updateWorkflowOk = false then
    t2 ++ [Effect.showError "Problem" (updateFailedMessage newActiveState),
      Effect.setLoading false]
  else
    let commitCurrent : List Effect :=
      if env.getterWorkflowId = env.workflowId then
        [Effect.commitSetActive newActiveState]
      else []
    let activationEventName : String :=
      if env.getterWorkflowId = env.workflowId then
        "workflow.activeChangeCurrent"
      else "workflow.activeChange"
    let activeCommits : List Effect :=
      if newActiveState = true then
        Effect.commitSetWorkflowActive env.workflowId ::
          (if isCurrentWorkflow env = true ∧ env.activationFlagSet = false then
            [Effect.dispatchOpenModal WORKFLOW_ACTIVE_MODAL_KEY]
          else [])
      else
        [Effect.commitSetWorkflowInactive env.workflowId]
    t2 ++ commitCurrent ++ activeCommits ++
      [Effect.runExternalHook activationEventName env.workflowId newActiveState,
       Effect.telemetryTrack "User set workflow active status" env.workflowId newActiveState,
       Effect.emitWorkflowActiveChanged env.workflowId newActiveState,
       Effect.setLoading false,
       Effect.dispatchFetchPromptsData]

/-- The `activeChanged(newActiveState)` method, as the ordered list of side
effects of one invocation. Mirrors the source: optional
`saveCurrentWorkflow` when the `workflowId` prop is `undefined`; the
`nodesIssuesExist` guard with its blocking `$showMessage` and early
return; the current-workflow activation branch
(`newActiveState === true && this.workflowId === activeWorkflowId`) with
its optional confirmation (early return on decline) and
`getWorkflowDataToSave`; then `data.active = newActiveState` and the
request tail `finishRequest`. The source assigns `data.active` after the
branch; here the field is set in the payload literal, which is the same
assignment. -/
def activeChanged (env : Env) (newActiveState : Bool) : List Effect :=
  if env.nodesIssuesExist = true then
    preSave env ++
      [Effect.showMessage "Problem activating workflow" issuesBlockedMessage "error" none]
  else
    if newActiveState = true ∧ env.workflowId = env.getterWorkflowId then
      if env.dirtyState = true then
        let t1 := preSave env ++
          [Effect.confirmMessage confirmSaveMessage "Activate and save?" "warning"
            "Yes, activate and save!"]
        if env.confirmResult = false then
          t1
        else
          finishRequest env newActiveState (t1 ++ [Effect.getWorkflowDataToSave])
            ⟨true, some newActiveState⟩
      else
        finishRequest env newActiveState (preSave env ++ [Effect.getWorkflowDataToSave])
          ⟨true, some newActiveState⟩
    else
      finishRequest env newActiveState (preSave env) ⟨false, some newActiveState⟩

/-- The outcome of the awaited `restApi().getActivationError` call. -/
inductive ActivationErrorResult where
  | throws : ActivationErrorResult
  | resolvedUndefined : ActivationErrorResult
  | resolvedData (message : String) : ActivationErrorResult
deriving DecidableEq

/-- The `displayActivationError` method: the REST lookup, then exactly one
`$showMessage` warning whose message depends on the lookup outcome
(`catch` branch, `undefined` result, or recorded error data). -/
def displayActivationError (workflowId : Option String)
    (result : ActivationErrorResult) : List Effect :=
  let errorMessage : String :=
    match result with
    | ActivationErrorResult.throws =>
        "Sorry there was a problem requesting the error"
    | ActivationErrorResult.resolvedUndefined =>
        "Sorry there was a problem. No error got found to display."
    | ActivationErrorResult.resolvedData m =>
        "The following error occurred on workflow activation:<br /><i>" ++ m ++ "</i>"
  [Effect.getActivationError workflowId,
   Effect.showMessage "Problem activating workflow" errorMessage "warning" (some 0)]

/-- Recognises the `updateWorkflow` REST call in a trace. -/
def isUpdateWorkflowEffect : Effect → Bool
  | Effect.updateWorkflow _ _ => true
  | _ => false

/-- Recognises the three store commits that change activation state. -/
def isStoreCommitEffect : Effect → Bool
  | Effect.commitSetActive _ => true
  | Effect.commitSetWorkflowActive _ => true
  | Effect.commitSetWorkflowInactive _ => true
  | _ => false

/-- Recognises the confirmation prompt. -/
def isConfirmEffect : Effect → Bool
  | Effect.confirmMessage _ _ _ _ => true
  | _ => false

/-- Recognises the `ui/openModal` dispatch of the workflow-active modal. -/
def isOpenModalEffect : Effect → Bool
  | Effect.dispatchOpenModal _ => true
  | _ => false

/-- Recognises a `$showMessage` dialog of type `warning`. -/
def isWarningMessageEffect : Effect → Bool
  | Effect.showMessage _ _ mtype _ => mtype == "warning"
  | _ => false

/-- Recognises the effects that can occur before the `updateWorkflow`
request in `activeChanged`: the optional `saveCurrentWorkflow`, the
optional confirmation prompt, and the optional `getWorkflowDataToSave`. -/
def isPreRequestEffect : Effect → Bool
  | Effect.saveCurrentWorkflow => true
  | Effect.confirmMessage _ _ _ _ => true
  | Effect.getWorkflowDataToSave => true
  | _ => false

/-- The value of the `loading` data field after a trace ran (it starts
`false`; each `setLoading` effect overwrites it). -/
def finalLoading (trace : List Effect) : Bool :=
  trace.foldl (fun acc e =>
    match e with
    | Effect.setLoading v => v
    | _ => acc) false

/-- A blocked toggle: node issues exist on the current workflow. -/
def envC1 : Env :=
  ⟨some "w1", false, true, some "w1", some "w1", false, [], [], true, true, false⟩

/-- A confirmed activation of the dirty currently-open workflow. -/
def envC2 : Env :=
  ⟨some "w1", false, false, some "w1", some "w1", true, [], [], true, true, false⟩

/-- A toggle whose `updateWorkflow` request throws. -/
def envC3 : Env :=
  ⟨some "w1", true, false, some "w1", some "w1", false, [], [], true, false, false⟩

/-- A workflow with zero enabled trigger nodes that is not the
currently-open workflow. -/
def envC4 : Env :=
  ⟨some "w1", false, false, some "other", some "other", false, [], [], true, true, false⟩

/-- A dirty currently-open workflow whose confirmation prompt is accepted. -/
def envC5 : Env :=
  ⟨some "w1", false, false, some "w1", some "w1", true, [], [], true, true, false⟩

/-- A successful activation of a workflow that is not the currently-open
one, with the local activation-dialog flag absent. -/
def envC8 : Env :=
  ⟨some "w1", false, false, some "other", some "other", false, [], [], true, true, false⟩

/-- A successful activation of the currently-open workflow with the local
activation-dialog flag absent. -/
def envC8w : Env :=
  ⟨some "w1", false, false, some "w1", some "w1", false, [], [], true, true, false⟩

/-- A toggle with an `undefined` `workflowId` prop. -/
def envC10 : Env :=
  ⟨none, false, false, none, none, false, [], [], true, true, false⟩

/-- The stage number of each effect in the documented pipeline of
`activeChanged`: validation error message (1), confirmation prompt (2),
save of the current editable workflow data with the activation (3), the
`updateWorkflow` network call (4), store commits (5), event emission —
external hook, telemetry, component event (6), resetting the loading
indicator (7). Effects outside the pipeline (`saveCurrentWorkflow` for an
undefined id, `setLoading true`, the error dialog, the activation modal,
`fetchPromptsData`) carry no stage. -/
def stageOf : Effect → Option Nat
  | Effect.showMessage _ _ _ _ => some 1
  | Effect.confirmMessage _ _ _ _ => some 2
  | Effect.getWorkflowDataToSave => some 3
  | Effect.updateWorkflow _ _ => some 4
  | Effect.commitSetActive _ => some 5
  | Effect.commitSetWorkflowActive _ => some 5
  | Effect.commitSetWorkflowInactive _ => some 5
  | Effect.runExternalHook _ _ _ => some 6
  | Effect.telemetryTrack _ _ _ => some 6
  | Effect.emitWorkflowActiveChanged _ _ => some 6
  | Effect.setLoading false => some 7
  | _ => none

/-! ## Trace-shape lemmas for `activeChanged` -/

theorem activeChanged_blocked (env : Env) (s : Bool)
    (h : env.nodesIssuesExist = true) :
    activeChanged env s = preSave env ++
      [Effect.showMessage "Problem activating workflow" issuesBlockedMessage "error" none] := by
  simp [activeChanged, h]

theorem activeChanged_cancelled (env : Env) (s : Bool)
    (hIss : env.nodesIssuesExist = false)
    (hs : s = true) (hcur : env.workflowId = env.getterWorkflowId)
    (hd : env.dirtyState = true) (hc : env.confirmResult = false) :
    activeChanged env s = preSave env ++
      [Effect.confirmMessage confirmSaveMessage "Activate and save?" "warning"
        "Yes, activate and save!"] := by
  simp [activeChanged, hIss, hs, hcur, hd, hc]

theorem activeChanged_confirmed (env : Env) (s : Bool)
    (hIss : env.nodesIssuesExist = false)
    (hs : s = true) (hcur : env.workflowId = env.getterWorkflowId)
    (hd : env.dirtyState = true) (hc : env.confirmResult = true) :
    activeChanged env s = finishRequest env s
      (preSave env ++
        [Effect.confirmMessage confirmSaveMessage "Activate and save?" "warning"
          "Yes, activate and save!",
         Effect.getWorkflowDataToSave])
      ⟨true, some s⟩ := by
  simp [activeChanged, hIss, hs, hcur, hd, hc]

theorem activeChanged_notDirty (env : Env) (s : Bool)
    (hIss : env.nodesIssuesExist = false)
    (hs : s = true) (hcur : env.workflowId = env.getterWorkflowId)
    (hd : env.dirtyState = false) :
    activeChanged env s = finishRequest env s
      (preSave env ++ [Effect.getWorkflowDataToSave]) ⟨true, some s⟩ := by
  simp [activeChanged, hIss, hs, hcur, hd]

theorem activeChanged_notCurrent (env : Env) (s : Bool)
    (hIss : env.nodesIssuesExist = false)
    (hb : ¬(s = true ∧ env.workflowId = env.getterWorkflowId)) :
    activeChanged env s = finishRequest env s (preSave env) ⟨false, some s⟩ := by
  unfold activeChanged
  rw [if_neg (by simp [hIss]), if_neg hb]

theorem finishRequest_fail (env : Env) (s : Bool) (t : List Effect)
    (d : IWorkflowDataUpdate) (h : env.updateWorkflowOk = false) :
    finishRequest env s t d = t ++
      [Effect.setLoading true, Effect.updateWorkflow env.workflowId d,
       Effect.showError "Problem" (updateFailedMessage s),
       Effect.setLoading false] := by
  simp [finishRequest, h]

theorem finishRequest_ok (env : Env) (s : Bool) (t : List Effect)
    (d : IWorkflowDataUpdate) (h : env.updateWorkflowOk = true) :
    finishRequest env s t d =
      t ++ [Effect.setLoading true, Effect.updateWorkflow env.workflowId d] ++
      (if env.getterWorkflowId = env.workflowId then [Effect.commitSetActive s] else []) ++
      (if s = true then
        Effect.commitSetWorkflowActive env.workflowId ::
          (if isCurrentWorkflow env = true ∧ env.activationFlagSet = false then
            [Effect.dispatchOpenModal WORKFLOW_ACTIVE_MODAL_KEY]
          else [])
      else [Effect.commitSetWorkflowInactive env.workflowId]) ++
      [Effect.runExternalHook
        (if env.getterWorkflowId = env.workflowId then "workflow.activeChangeCurrent"
         else "workflow.activeChange") env.workflowId s,
       Effect.telemetryTrack "User set workflow active status" env.workflowId s,
       Effect.emitWorkflowActiveChanged env.workflowId s,
       Effect.setLoading false,
       Effect.dispatchFetchPromptsData] := by
  simp [finishRequest, h]

theorem mem_preSave (env : Env) (e : Effect) (he : e ∈ preSave env) :
    e = Effect.saveCurrentWorkflow := by
  unfold preSave at he
  split at he <;> simp_all

theorem countP_update_preSave (env : Env) :
    (preSave env).countP isUpdateWorkflowEffect = 0 := by
  unfold preSave
  split <;> simp [isUpdateWorkflowEffect]

theorem update_mem_finishRequest (env : Env) (s : Bool) (t : List Effect)
    (d : IWorkflowDataUpdate) (id : Option String) (d0 : IWorkflowDataUpdate) :
    Effect.updateWorkflow id d0 ∈ finishRequest env s t d ↔
      Effect.updateWorkflow id d0 ∈ t ∨ (id = env.workflowId ∧ d0 = d) := by
  unfold finishRequest
  split_ifs <;> simp [and_comm]

theorem countP_update_finishRequest (env : Env) (s : Bool) (t : List Effect)
    (d : IWorkflowDataUpdate) :
    (finishRequest env s t d).countP isUpdateWorkflowEffect =
      t.countP isUpdateWorkflowEffect + 1 := by
  unfold finishRequest
  split_ifs <;> simp [isUpdateWorkflowEffect]

theorem finalLoading_finishRequest (env : Env) (s : Bool) (t : List Effect)
    (d : IWorkflowDataUpdate) :
    finalLoading (finishRequest env s t d) = false := by
  unfold finishRequest finalLoading
  split_ifs <;> simp [List.foldl_append]

theorem finishRequest_shape (env : Env) (s : Bool) (t : List Effect)
    (d : IWorkflowDataUpdate) :
    ∃ rest, finishRequest env s t d = t ++ rest := by
  unfold finishRequest
  split_ifs <;> exact ⟨_, by simp only [List.append_assoc]; rfl⟩

theorem takeWhile_append_stop (p : Effect → Bool) (pre rest : List Effect)
    (c : Effect) (hall : ∀ e ∈ pre, p e = true) (hc : p c = false) :
    (pre ++ c :: rest).takeWhile p = pre := by
  induction pre with
  | nil => simp [List.takeWhile, hc]
  | cons a l ih =>
      have ha : p a = true := hall a (by simp)
      simp only [List.cons_append, List.takeWhile, ha]
      exact congrArg (a :: ·) (ih (fun e he => hall e (by simp [he])))

theorem activeChanged_reaches_request (env : Env) (s : Bool)
    (hIss : env.nodesIssuesExist = false)
    (hNoCancel : ¬(s = true ∧ env.workflowId = env.getterWorkflowId ∧
      env.dirtyState = true ∧ env.confirmResult = false)) :
    ∃ t d, activeChanged env s = finishRequest env s t d ∧
      (∀ e ∈ t, isPreRequestEffect e = true) ∧
      d.active = some s ∧
      (s = true ∧ env.workflowId = env.getterWorkflowId → d.fullSnapshot = true) := by
  by_cases hb : s = true ∧ env.workflowId = env.getterWorkflowId
  · by_cases hd : env.dirtyState = true
    · have hc : env.confirmResult = true := by
        cases hcc : env.confirmResult
        · exact absurd ⟨hb.1, hb.2, hd, hcc⟩ hNoCancel
        · rfl
      refine ⟨_, _, activeChanged_confirmed env s hIss hb.1 hb.2 hd hc, ?_, rfl,
        fun _ => rfl⟩
      intro e he
      rcases List.mem_append.mp he with h | h
      · rw [mem_preSave env e h]; rfl
      · simp at h
        rcases h with rfl | rfl <;> rfl
    · have hd' : env.dirtyState = false := by
        cases hdd : env.dirtyState
        · rfl
        · exact absurd hdd hd
      refine ⟨_, _, activeChanged_notDirty env s hIss hb.1 hb.2 hd', ?_, rfl,
        fun _ => rfl⟩
      intro e he
      rcases List.mem_append.mp he with h | h
      · rw [mem_preSave env e h]; rfl
      · simp at h
        subst h; rfl
  · refine ⟨_, _, activeChanged_notCurrent env s hIss hb, ?_, rfl, fun h => absurd h hb⟩
    intro e he
    rw [mem_preSave env e he]; rfl

/-! ## Claims -/

/-- Claim C1: for every toggle interaction (activate or deactivate), if
unresolved node issues exist, `activeChanged` shows the blocking error
message and returns without ever calling `restApi().updateWorkflow`. -/
theorem issues_block_toggle (env : Env) (s : Bool)
    (h : env.nodesIssuesExist = true) :
    Effect.showMessage "Problem activating workflow" issuesBlockedMessage "error" none
        ∈ activeChanged env s ∧
    ∀ id d, Effect.updateWorkflow id d ∉ activeChanged env s := by
  rw [activeChanged_blocked env s h]
  refine ⟨by simp, fun id d hmem => ?_⟩
  rcases List.mem_append.mp hmem with hpre | htail
  · exact absurd (mem_preSave env _ hpre) (by simp)
  · simp at htail

/-- Claim C1 witness: a concrete blocked toggle. -/
theorem issues_block_toggle_witness :
    Effect.showMessage "Problem activating workflow" issuesBlockedMessage "error" none
        ∈ activeChanged envC1 true ∧
    ∀ id d, Effect.updateWorkflow id d ∉ activeChanged envC1 true :=
  issues_block_toggle envC1 true rfl

/-- Claim C6: `couldNotBeStarted` is true exactly when the `workflowActive`
prop is true and the workflow id is not contained in the store's
active-workflow set (`isWorkflowActive`); as a Boolean equation this
settles all four combinations of the two booleans at once. -/
theorem couldNotBeStarted_characterization (env : Env) :
    couldNotBeStarted env = (env.workflowActive && !(isWorkflowActive env)) := by
  unfold couldNotBeStarted
  cases hA : env.workflowActive <;> cases hB : isWorkflowActive env <;> simp [hA, hB]

/-- Claim C4 counterexample: a workflow with zero enabled trigger nodes
that is not the currently-open workflow, yet the `disabled` predicate is
`false` — the switch stays interactive, contradicting the claim. -/
theorem disabled_nonCurrent_counterexample :
    containsTrigger envC4 = false ∧ isCurrentWorkflow envC4 = false ∧
      disabled envC4 = false := by
  decide

/-- Claim C4 amended: the `disabled` predicate is true exactly for the
currently-open workflow when it is not active and has zero enabled
trigger nodes; for every workflow that is not the currently-open one,
`disabled` is `false` regardless of its trigger nodes. -/
theorem disabled_characterization (env : Env) :
    disabled env =
      (isCurrentWorkflow env && (!env.workflowActive && !containsTrigger env)) := by
  unfold disabled
  cases h : isCurrentWorkflow env <;> simp [h]

/-- Claim C9: `displayActivationError` distinguishes the three outcomes of
the lookup — the generic request-problem message when `getActivationError`
throws, the distinct no-error-found message when it resolves to
`undefined`, and the recorded error message when it resolves to error
data — and in every case it shows exactly one warning dialog and does not
propagate the failure (the effect trace is total and always ends in the
single warning `$showMessage`). -/
theorem displayActivationError_cases (workflowId : Option String) :
    displayActivationError workflowId ActivationErrorResult.throws =
      [Effect.getActivationError workflowId,
       Effect.showMessage "Problem activating workflow"
         "Sorry there was a problem requesting the error" "warning" (some 0)] ∧
    displayActivationError workflowId ActivationErrorResult.resolvedUndefined =
      [Effect.getActivationError workflowId,
       Effect.showMessage "Problem activating workflow"
         "Sorry there was a problem. No error got found to display." "warning" (some 0)] ∧
    (∀ m, displayActivationError workflowId (ActivationErrorResult.resolvedData m) =
      [Effect.getActivationError workflowId,
       Effect.showMessage "Problem activating workflow"
         ("The following error occurred on workflow activation:<br /><i>" ++ m ++ "</i>")
         "warning" (some 0)]) ∧
    (∀ result,
      (displayActivationError workflowId result).countP isWarningMessageEffect = 1) := by
  refine ⟨rfl, rfl, fun m => rfl, fun result => ?_⟩
  cases result <;> simp [displayActivationError, isWarningMessageEffect]

/-- Claim C10: when the `workflowId` prop is `undefined`, `activeChanged`
performs `saveCurrentWorkflow` first, before the node-issues validation
and before every other side effect (it is the head of the effect trace);
when the `workflowId` prop is defined, `saveCurrentWorkflow` is never
called on this path. -/
theorem saveCurrentWorkflow_iff_undefined_id (env : Env) (s : Bool) :
    (env.workflowId = none →
      (activeChanged env s).head? = some Effect.saveCurrentWorkflow) ∧
    (env.workflowId ≠ none →
      Effect.saveCurrentWorkflow ∉ activeChanged env s) := by
  constructor
  · intro hn
    unfold activeChanged finishRequest
    split_ifs <;> simp [preSave, hn]
  · intro hn
    unfold activeChanged finishRequest
    split_ifs <;> simp [preSave, hn]

/-- Claim C10 witness: with an `undefined` `workflowId` prop the first
effect is `saveCurrentWorkflow`. -/
theorem saveCurrentWorkflow_iff_undefined_id_witness :
    (activeChanged envC10 true).head? = some Effect.saveCurrentWorkflow :=
  (saveCurrentWorkflow_iff_undefined_id envC10 true).1 rfl

/-- Claim C2: for every toggle that is not blocked by validation and not
cancelled at the confirmation prompt, `activeChanged` sends exactly one
`updateWorkflow` request, its target id is the `workflowId` prop and its
payload has `active` set to the new desired state; and when the toggled
workflow is the currently-open one being activated, the payload is the
full current editable workflow snapshot from `getWorkflowDataToSave`. -/
theorem confirmed_toggle_single_update (env : Env) (s : Bool)
    (hIss : env.nodesIssuesExist = false)
    (hNoCancel : ¬(s = true ∧ env.workflowId = env.getterWorkflowId ∧
      env.dirtyState = true ∧ env.confirmResult = false)) :
    (activeChanged env s).countP isUpdateWorkflowEffect = 1 ∧
    ∀ id d, Effect.updateWorkflow id d ∈ activeChanged env s →
      id = env.workflowId ∧ d.active = some s ∧
      (s = true ∧ env.workflowId = env.getterWorkflowId → d.fullSnapshot = true) := by
  obtain ⟨t, d, heq, hpre, hact, hsnap⟩ :=
    activeChanged_reaches_request env s hIss hNoCancel
  rw [heq]
  constructor
  · rw [countP_update_finishRequest]
    have ht : t.countP isUpdateWorkflowEffect = 0 :=
      List.countP_eq_zero.mpr (fun e he => by
        have h := hpre e he
        cases e <;> simp_all [isPreRequestEffect, isUpdateWorkflowEffect])
    omega
  · intro id d0 hmem
    rcases (update_mem_finishRequest env s t d id d0).mp hmem with hin | ⟨hid, hd0⟩
    · have h := hpre _ hin
      simp [isPreRequestEffect] at h
    · subst hd0
      exact ⟨hid, hact, hsnap⟩

/-- Claim C2 witness: a confirmed activation of the dirty currently-open
workflow sends exactly one full-snapshot update with `active: true`. -/
theorem confirmed_toggle_single_update_witness :
    (activeChanged envC2 true).countP isUpdateWorkflowEffect = 1 ∧
    ∀ id d, Effect.updateWorkflow id d ∈ activeChanged envC2 true →
      id = envC2.workflowId ∧ d.active = some true ∧
      (true = true ∧ envC2.workflowId = envC2.getterWorkflowId → d.fullSnapshot = true) :=
  confirmed_toggle_single_update envC2 true rfl (by decide)

/-- Claim C3: for every toggle interaction whose `updateWorkflow` request
fails, `activeChanged` shows the error dialog, performs no store commit
at all (no `setActive`, `setWorkflowActive` or `setWorkflowInactive`), so
the activation flag in the store is unchanged, and the loading flag ends
at `false`. -/
theorem update_failure_no_store_mutation (env : Env) (s : Bool)
    (hIss : env.nodesIssuesExist = false)
    (hNoCancel : ¬(s = true ∧ env.workflowId = env.getterWorkflowId ∧
      env.dirtyState = true ∧ env.confirmResult = false))
    (hFail : env.updateWorkflowOk = false) :
    Effect.showError "Problem" (updateFailedMessage s) ∈ activeChanged env s ∧
    (∀ e ∈ activeChanged env s, isStoreCommitEffect e = false) ∧
    finalLoading (activeChanged env s) = false := by
  obtain ⟨t, d, heq, hpre, -, -⟩ := activeChanged_reaches_request env s hIss hNoCancel
  rw [heq]
  refine ⟨?_, ?_, finalLoading_finishRequest env s t d⟩
  · rw [finishRequest_fail env s t d hFail]
    simp
  · intro e he
    rw [finishRequest_fail env s t d hFail] at he
    rcases List.mem_append.mp he with h | h
    · have h2 := hpre e h
      cases e <;> simp_all [isPreRequestEffect, isStoreCommitEffect]
    · simp at h
      rcases h with rfl | rfl | rfl | rfl <;> rfl

/-- Claim C3 witness: a failing deactivation of the currently-open
workflow shows the error, commits nothing and ends with loading off. -/
theorem update_failure_no_store_mutation_witness :
    Effect.showError "Problem" (updateFailedMessage false) ∈ activeChanged envC3 false ∧
    (∀ e ∈ activeChanged envC3 false, isStoreCommitEffect e = false) ∧
    finalLoading (activeChanged envC3 false) = false :=
  update_failure_no_store_mutation envC3 false rfl (by decide) rfl

/-- Claim C5: for every toggle to active of the currently-open workflow
(the `workflowId` prop equals the store getter `workflowId`) whose dirty
flag is set, the confirmation prompt is awaited, every effect before the
first confirmation prompt in the trace is not an `updateWorkflow` call
(so the prompt precedes any network call), and if the user declines the
prompt, no `updateWorkflow` call is issued and no store commit happens. -/
theorem dirty_activation_confirm_first (env : Env) (s : Bool)
    (hs : s = true) (hcur : env.workflowId = env.getterWorkflowId)
    (hdirty : env.dirtyState = true) (hIss : env.nodesIssuesExist = false) :
    (Effect.confirmMessage confirmSaveMessage "Activate and save?" "warning"
        "Yes, activate and save!" ∈ activeChanged env s) ∧
    (∀ e ∈ (activeChanged env s).takeWhile (fun x => !isConfirmEffect x),
      isUpdateWorkflowEffect e = false) ∧
    (env.confirmResult = false →
      ∀ e ∈ activeChanged env s,
        isUpdateWorkflowEffect e = false ∧ isStoreCommitEffect e = false) := by
  have hform : ∃ rest, activeChanged env s = preSave env ++
      Effect.confirmMessage confirmSaveMessage "Activate and save?" "warning"
        "Yes, activate and save!" :: rest := by
    by_cases hc : env.confirmResult = false
    · exact ⟨[], by rw [activeChanged_cancelled env s hIss hs hcur hdirty hc]⟩
    · have hc' : env.confirmResult = true := by
        cases hcc : env.confirmResult
        · exact absurd hcc hc
        · rfl
      obtain ⟨rest, hr⟩ := finishRequest_shape env s
        (preSave env ++
          [Effect.confirmMessage confirmSaveMessage "Activate and save?" "warning"
            "Yes, activate and save!",
           Effect.getWorkflowDataToSave])
        ⟨true, some s⟩
      refine ⟨Effect.getWorkflowDataToSave :: rest, ?_⟩
      rw [activeChanged_confirmed env s hIss hs hcur hdirty hc', hr]
      simp
  obtain ⟨rest, hform⟩ := hform
  refine ⟨?_, ?_, ?_⟩
  · rw [hform]; simp
  · rw [hform, takeWhile_append_stop _ _ _ _
      (fun e he => by rw [mem_preSave env e he]; rfl) rfl]
    intro e he
    rw [mem_preSave env e he]
    rfl
  · intro hc e he
    rw [activeChanged_cancelled env s hIss hs hcur hdirty hc] at he
    rcases List.mem_append.mp he with h | h
    · rw [mem_preSave env e h]
      exact ⟨rfl, rfl⟩
    · simp at h
      subst h
      exact ⟨rfl, rfl⟩

/-- Claim C5 witness: a dirty currently-open workflow toggled active. -/
theorem dirty_activation_confirm_first_witness :
    (Effect.confirmMessage confirmSaveMessage "Activate and save?" "warning"
        "Yes, activate and save!" ∈ activeChanged envC5 true) ∧
    (∀ e ∈ (activeChanged envC5 true).takeWhile (fun x => !isConfirmEffect x),
      isUpdateWorkflowEffect e = false) ∧
    (envC5.confirmResult = false →
      ∀ e ∈ activeChanged envC5 true,
        isUpdateWorkflowEffect e = false ∧ isStoreCommitEffect e = false) :=
  dirty_activation_confirm_first envC5 true rfl rfl rfl rfl

set_option maxHeartbeats 1600000 in
/-- Claim C7: within the pipeline stages named by the spec — validation
error message (1), confirmation prompt (2), save of the current editable
workflow data with the activation (3), the `updateWorkflow` network call
(4), store commits (5), event emission: external hook, telemetry,
component event (6), resetting the loading indicator (7) — no effect of a
later stage ever precedes an effect of an earlier stage in the trace of
`activeChanged`, for every environment and both toggle directions. -/
theorem activeChanged_stage_order (env : Env) (s : Bool) :
    List.Pairwise (fun a b => a ≤ b) ((activeChanged env s).filterMap stageOf) := by
  unfold activeChanged finishRequest preSave
  split_ifs <;> simp [stageOf]

/-- Claim C8 counterexample: a successful activation (`updateWorkflow`
resolves, `newActiveState` is true) with the local persisted dismissal
flag absent, for a workflow that is not the currently-open one: the
workflow-active modal is not triggered, contradicting the claim. -/
theorem activation_modal_nonCurrent_counterexample :
    envC8.updateWorkflowOk = true ∧ envC8.activationFlagSet = false ∧
    (activeChanged envC8 true).countP isUpdateWorkflowEffect = 1 ∧
    ∀ e ∈ activeChanged envC8 true, isOpenModalEffect e = false := by
  decide

/-- Claim C8 amended: for every successful activation (no validation
block, not cancelled, `updateWorkflow` resolves with `newActiveState`
true), the one-time workflow-active modal is triggered exactly when the
toggled workflow is the currently-open one (`isCurrentWorkflow`) and the
local persisted dismissal flag is absent; in particular when the flag is
present the dialog is never shown. -/
theorem activation_modal_iff (env : Env)
    (hIss : env.nodesIssuesExist = false)
    (hNoCancel : ¬(env.workflowId = env.getterWorkflowId ∧ env.dirtyState = true ∧
      env.confirmResult = false))
    (hOk : env.updateWorkflowOk = true) :
    (Effect.dispatchOpenModal WORKFLOW_ACTIVE_MODAL_KEY ∈ activeChanged env true ↔
      (isCurrentWorkflow env = true ∧ env.activationFlagSet = false)) := by
  obtain ⟨t, d, heq, hpre, -, -⟩ :=
    activeChanged_reaches_request env true hIss (fun h => hNoCancel h.2)
  have hnotin : Effect.dispatchOpenModal WORKFLOW_ACTIVE_MODAL_KEY ∉ t := fun hmem => by
    have h := hpre _ hmem
    simp [isPreRequestEffect] at h
  rw [heq, finishRequest_ok env true t d hOk]
  by_cases hm : isCurrentWorkflow env = true ∧ env.activationFlagSet = false
  · simp [hm]
  · simp [hm, hnotin]

/-- Claim C8 amended witness: a successful activation of the currently-open
workflow with the flag absent does trigger the modal. -/
theorem activation_modal_iff_witness :
    Effect.dispatchOpenModal WORKFLOW_ACTIVE_MODAL_KEY ∈ activeChanged envC8w true :=
  (activation_modal_iff envC8w rfl (by decide) rfl).mpr (by decide)

end WorkflowActivator
